import Mathlib

/-!
Verification of the asionet networking core, shallowly embedded from the
repository sources: the timed operation wrappers (`Closeable.h`), the framed
stream read/write (`asionet/Stream.h`), the message layer (`Message.h`) and
the service-client asynchronous call chain (`ServiceClient.h`).

The underlying asynchronous primitives (boost::asio `async_read`,
`async_write`, and the socket connect/sendTo/receiveFrom operations) are
modelled as environments that supply exactly one completion per submitted
operation, which is the asio completion contract.  Each embedded operation
maps such an environment to the list of invocations it performs on its user
handler, so "handler invoked exactly once" becomes "the invocation list has
length one".
-/

/-- Modelled from the spec: `Error.h` is not under `src/`.  The classified
error taxonomy of spec section 7 (`error::codes`): `Success`, `Aborted`,
`FailedOperation`, `InvalidFrame`, `Encoding`, `Decoding`, `Busy`. -/
inductive ErrorCode where
  | success
  | aborted
  | failedOperation
  | invalidFrame
  | encoding
  | decoding
  | busy
  deriving DecidableEq, Repr

/-- Truthiness of an `error::Error` value in a C++ `if (error)` test:
every code other than `SUCCESS` is truthy. -/
def ErrorCode.isError : ErrorCode → Bool
  | ErrorCode.success => false
  | _ => true

/-- Model of `boost::system::error_code` as it reaches the completion
handlers: no error, `operation_aborted` (the cancellation error produced by
closing the transport), or some other platform error code. -/
inductive SysError where
  | success
  | operationAborted
  | other (code : Nat)
  deriving DecidableEq, Repr

/-- Truthiness of a `boost::system::error_code`: nonzero codes are truthy. -/
def SysError.isError : SysError → Bool
  | SysError.success => false
  | _ => true

/-- One completion of an underlying asynchronous I/O as observed by the
wrapped handler in `timedAsyncOperation` (`Closeable.h` lines 152-162):
whether `is_open()` still holds on the closeable at that moment, the
`boost` error the operation reported, and the bytes transferred. -/
structure Completion where
  isOpen : Bool
  opError : SysError
  bytes : Nat
  deriving DecidableEq, Repr

/-- The outcome classification performed by the completion handler of
`timedAsyncOperation` (`Closeable.h` lines 156-160): start from `SUCCESS`;
if the closeable is no longer open the code becomes `ABORTED`; otherwise if
the operation reported an error it becomes `FAILED_OPERATION`. -/
def timedAsyncOperation (c : Completion) : ErrorCode :=
  if !c.isOpen then ErrorCode.aborted
  else if c.opError.isError then ErrorCode.failedOperation
  else ErrorCode.success

/-- The classified error a completion delivers to the composed handler. -/
def Completion.code (c : Completion) : ErrorCode := timedAsyncOperation c

/-- Result of the synchronous wrapper `timedOperation` (`Closeable.h` lines
77-125): either it returns normally, or it throws `error::Aborted`, or it
throws `error::FailedOperation`. -/
inductive SyncResult where
  | ok
  | threwAborted
  | threwFailedOperation
  deriving DecidableEq, Repr

/-- The sentinel `boost::asio::error::would_block` that `timedOperation`
initializes `closeableError` with (`Closeable.h` line 97): a truthy error
code distinct from `operation_aborted`. -/
def wouldBlock : SysError := SysError.other 35

/-- The synchronous wrapper `timedOperation` (`Closeable.h` lines 77-125).
`closeableError` is initialized to `would_block` (line 97) and — as in the
source — never reassigned: the completion handler (lines 105-111) only
stops the timer and stores the completion error into `result`.  The final
check (lines 118-124) therefore tests the unchanged `would_block` value.
`completionError` is the error the awaited operation delivered and `isOpen`
the value of `is_open()` on the closeable afterwards; the result pairs the
control-flow outcome with the error stored into `result`. -/
def timedOperation (completionError : SysError) (isOpen : Bool) : SyncResult × SysError :=
  let closeableError := wouldBlock
  let result := completionError
  (if closeableError.isError || !isOpen then
     if closeableError = SysError.operationAborted then SyncResult.threwAborted
     else SyncResult.threwFailedOperation
   else SyncResult.ok,
   result)

/-- Modelled from the spec: `Frame.h` is not under `src/`.  The frame header
is the 4-byte big-endian payload length (spec sections 3, 4.1 and 6), so
`Frame::HEADER_SIZE` is 4. -/
def HEADER_SIZE : Nat := 4

/-- Modelled from the spec: `Frame.h` is not under `src/`.  `Frame::getSize`
is the total frame size, header plus payload bytes (spec section 3). -/
def frameSize (payload : List Nat) : Nat := HEADER_SIZE + payload.length

/-- Modelled from the spec: `Utils.h` (`fromBigEndian`) is not under `src/`.
`decode_header` parses the 4 header bytes as a big-endian unsigned length
(spec section 4.1). -/
def fromBigEndian4 (bs : List Nat) : Nat :=
  bs.foldl (fun acc b => acc * 256 + b % 256) 0

/-- Handler invocations performed by `stream::asyncWrite` (`Stream.h` lines
55-80) once its single timed write completes: if fewer bytes than the frame
size were transferred the handler is called with `error::failedOperation`,
otherwise with the classified error of the completion. -/
def asyncWrite (writeData : List Nat) (c : Completion) : List ErrorCode :=
  if c.bytes < frameSize writeData then [ErrorCode.failedOperation]
  else [c.code]

/-- One invocation of a `stream::ReadHandler`: the classified error and the
data bytes handed to the caller. -/
abbrev ReadCall := ErrorCode × List Nat

/-- Environment for one run of the two-phase `stream::asyncRead`:
the completion of the header-phase timed read, the header bytes the stream
placed in the buffer, the time elapsed between entry (`startTime`) and the
header-phase handler (`time::now() - startTime`), the completion of the
body-phase timed read (consulted only if phase 2 is submitted), and the
body bytes placed in the buffer. -/
structure ReadEnv where
  phase1 : Completion
  headerBytes : List Nat
  elapsed : Int
  phase2 : Completion
  bodyBytes : List Nat

/-- The two-phase framed read `stream::asyncRead` (`Stream.h` lines 82-153).
Returns the list of handler invocations together with `some (n, t)` when a
body-phase read was submitted for `n` announced bytes with timeout `t`, and
`none` when no second read was issued.  Branches follow the source: a
truthy classified error propagates with empty data; a header of other than
`HEADER_SIZE` bytes yields `invalidFrame`; a parsed length of zero succeeds
immediately with empty data; otherwise the body read runs with timeout
`timeout - (now - startTime)` and its handler propagates errors, flags a
wrong byte count as `invalidFrame`, and otherwise delivers the body. -/
def asyncRead (timeout : Int) (env : ReadEnv) : List ReadCall × Option (Nat × Int) :=
  if (env.phase1.code).isError then ([(env.phase1.code, [])], none)
  else if env.phase1.bytes ≠ HEADER_SIZE then ([(ErrorCode.invalidFrame, [])], none)
  else if fromBigEndian4 (env.headerBytes.take HEADER_SIZE) = 0 then
    ([(env.phase1.code, [])], none)
  else
    ([if (env.phase2.code).isError then (env.phase2.code, [])
      else if env.phase2.bytes ≠ fromBigEndian4 (env.headerBytes.take HEADER_SIZE) then
        (ErrorCode.invalidFrame, [])
      else (env.phase2.code, env.bodyBytes.take (fromBigEndian4 (env.headerBytes.take HEADER_SIZE)))],
     some (fromBigEndian4 (env.headerBytes.take HEADER_SIZE), timeout - env.elapsed))

/-- Trace of one submission of `message::asyncSend` or
`message::asyncSendDatagram`: the handler invocations made synchronously
from inside the submitting call, those scheduled on the executor via
`callLater`, those made from the transport I/O completion, and whether a
transport I/O was submitted at all. -/
structure SendTrace where
  submitCalls : List ErrorCode
  postedCalls : List ErrorCode
  ioCalls : List ErrorCode
  ioAttempted : Bool
  deriving DecidableEq, Repr

/-- All handler invocations of a send trace. -/
def SendTrace.allCalls (s : SendTrace) : List ErrorCode :=
  s.submitCalls ++ s.postedCalls ++ s.ioCalls

/-- The framed `message::asyncSend` (`Message.h` lines 102-120).
`encodeResult` is the outcome of `internal::encode` on the message (`none`
when the user encoder threw).  Modelled from the spec: `Context.h`
(`callLater`) is not under `src/`; per spec sections 4.6 and 7 it schedules
its closure on the executor, so the `Encoding` invocation is recorded as
posted, not synchronous.  On encode success the frame write is submitted
and its completion handler forwards the classified error unchanged. -/
def asyncSend (encodeResult : Option (List Nat)) (c : Completion) : SendTrace :=
  match encodeResult with
  | none => { submitCalls := [], postedCalls := [ErrorCode.encoding], ioCalls := [], ioAttempted := false }
  | some data => { submitCalls := [], postedCalls := [], ioCalls := asyncWrite data c, ioAttempted := true }

/-- The datagram `message::asyncSendDatagram` (`Message.h` lines 170-190).
Modelled from the spec: `Socket.h` (`asyncSendTo`) is not under `src/`; it
is a timed transport primitive delivering one classified error `e`, which
the completion lambda forwards unchanged.  An encode failure is posted via
`callLater` exactly as on the stream path. -/
def asyncSendDatagram (encodeResult : Option (List Nat)) (e : ErrorCode) : SendTrace :=
  match encodeResult with
  | none => { submitCalls := [], postedCalls := [ErrorCode.encoding], ioCalls := [], ioAttempted := false }
  | some _ => { submitCalls := [], postedCalls := [], ioCalls := [e], ioAttempted := true }

/-- The framed `message::asyncReceive` (`Message.h` lines 135-154): each
invocation of the read handler is mapped by running `internal::decode` on
the delivered data; a decoder failure reports `DECODING` with a null
message, otherwise the read's error code is forwarded with the decoded
message. -/
def asyncReceive {α : Type} (dec : List Nat → Option α) (timeout : Int)
    (env : ReadEnv) : List (ErrorCode × Option α) :=
  (asyncRead timeout env).1.map (fun call =>
    match dec call.2 with
    | none => (ErrorCode.decoding, none)
    | some m => (call.1, some m))

/-- The datagram `message::asyncReceiveDatagram` (`Message.h` lines
207-226).  Modelled from the spec: `Socket.h` (`asyncReceiveFrom`) is not
under `src/`; it delivers one completion carrying a classified error, the
received bytes and the sender endpoint.  The wrapper decodes the bytes,
reporting `DECODING` on decoder failure and otherwise forwarding the error
code unchanged together with the sender endpoint. -/
def asyncReceiveDatagram {α : Type} (dec : List Nat → Option α) (e : ErrorCode)
    (data : List Nat) (senderHost : String) (senderPort : Nat) :
    List (ErrorCode × Option α × String × Nat) :=
  match dec data with
  | none => [(ErrorCode.decoding, none, senderHost, senderPort)]
  | some m => [(e, some m, senderHost, senderPort)]

/-- Environment for one run of `ServiceClient::asyncCallOperation`: the
classified error delivered by the timed `socket::asyncConnect` (modelled
from the spec: `Socket.h` is not under `src/`; it is a timed transport
primitive delivering one classified completion), the elapsed times consumed
by `updateTimeout` after connect and after send, the encode result of the
request, the completion of the frame write inside `asyncSend`, the read
environment of the response `asyncReceive`, and the response decoder. -/
structure CallEnv (α : Type) where
  connectCode : ErrorCode
  elapsedConnect : Int
  encodeResult : Option (List Nat)
  sendCompletion : Completion
  elapsedSend : Int
  readEnv : ReadEnv
  dec : List Nat → Option α

/-- The asynchronous call chain `ServiceClient::asyncCallOperation`
(`ServiceClient.h` lines 130-181): a truthy connect error goes to the user
handler with a null response; otherwise the timeout is decremented and the
request is sent; each send-handler invocation with a truthy error goes to
the user handler with a null response; otherwise the timeout is decremented
again and the response is received, whose handler invocations reach the
user handler unchanged. -/
def asyncCallOperation {α : Type} (timeout : Int) (env : CallEnv α) :
    List (ErrorCode × Option α) :=
  if env.connectCode.isError then [(env.connectCode, none)]
  else
    (asyncSend env.encodeResult env.sendCompletion).allCalls.flatMap (fun e =>
      if e.isError then [(e, none)]
      else asyncReceive env.dec (timeout - env.elapsedConnect - env.elapsedSend) env.readEnv)

/-- State of a `closeable::Closer` guard (`Closeable.h` lines 20-61): only
its `alive` flag matters for whether its destructor closes the transport. -/
structure Closer where
  alive : Bool
  deriving DecidableEq, Repr

/-- Construction `Closer(closeable)`: the member initializer sets
`alive{true}`. -/
def Closer.make : Closer := { alive := true }

/-- Whether the destructor `~Closer` calls `close` on the transport: it
does so exactly while the guard is alive (`Closeable.h` lines 28-32). -/
def Closer.destructorCloses (c : Closer) : Bool := c.alive

/-- Move construction `Closer(Closer &&)` (`Closeable.h` lines 38-42):
the new guard default-initializes `alive{true}` and the source's `alive`
is set to false.  Returns (new guard, updated source). -/
def Closer.moveCtor (other : Closer) : Closer × Closer :=
  ({ alive := true }, { other with alive := false })

/-- Move assignment `operator=(Closer &&)` (`Closeable.h` lines 44-50):
the destination takes the source's `alive` and the source's `alive` is set
to false.  Returns (updated destination, updated source). -/
def Closer.moveAssign (dst src : Closer) : Closer × Closer :=
  ({ dst with alive := src.alive }, { src with alive := false })

/-- One move in a guard chain: by move construction, or by move assignment
onto an existing guard whose prior `alive` flag was `dstAlive`. -/
inductive MoveKind where
  | byCtor
  | byAssign (dstAlive : Bool)
  deriving DecidableEq, Repr

/-- Performing one chain move from the current head guard: the result is
(new head, moved-from source state). -/
def moveStep (head : Closer) : MoveKind → Closer × Closer
  | MoveKind.byCtor => Closer.moveCtor head
  | MoveKind.byAssign d => Closer.moveAssign { alive := d } head

/-- Folding step over a chain: the accumulator is the current head together
with the states of all moved-from guards. -/
def chainStep (acc : Closer × List Closer) (k : MoveKind) : Closer × List Closer :=
  ((moveStep acc.1 k).1, (moveStep acc.1 k).2 :: acc.2)

/-- Running a guard chain: start from a freshly constructed `Closer` and
perform the given moves in order; the result is the final head and the
final states of every moved-from guard. -/
def runChain (ks : List MoveKind) : Closer × List Closer :=
  ks.foldl chainStep (Closer.make, [])

/-- How many times the transport is closed when every guard of the chain is
destroyed: the head closes iff alive, plus one close per moved-from guard
whose destructor still closes. -/
def chainCloseCount (ks : List MoveKind) : Nat :=
  (if (runChain ks).1.destructorCloses then 1 else 0)
    + ((runChain ks).2.filter (fun c => c.destructorCloses)).length

/-- A concrete user decoder instantiating the `Decoder<Message>` template:
it fails on empty input (spec section 4.6 allows user decoders to fail) and
returns the bytes themselves otherwise. -/
def decodeNonEmpty : List Nat → Option (List Nat) :=
  fun d => if d = [] then none else some d

/-- Helper: the framed write invokes its handler exactly once per
completion. -/
theorem asyncWrite_calls_length (writeData : List Nat) (c : Completion) :
    (asyncWrite writeData c).length = 1 := by
  unfold asyncWrite
  split <;> rfl

/-- Helper: the two-phase framed read invokes its handler exactly once per
environment. -/
theorem asyncRead_calls_length (t : Int) (env : ReadEnv) :
    (asyncRead t env).1.length = 1 := by
  unfold asyncRead
  repeat' split
  all_goals rfl

/-- Helper: `asyncSend` makes exactly one handler invocation, posted or
from the I/O completion. -/
theorem asyncSend_calls_length (enc : Option (List Nat)) (c : Completion) :
    (asyncSend enc c).allCalls.length = 1 := by
  cases enc with
  | none => rfl
  | some d => simpa [asyncSend, SendTrace.allCalls] using asyncWrite_calls_length d c

/-- Helper: `asyncReceive` invokes its handler exactly once per
environment. -/
theorem asyncReceive_calls_length {α : Type} (dec : List Nat → Option α)
    (t : Int) (env : ReadEnv) : (asyncReceive dec t env).length = 1 := by
  unfold asyncReceive
  rw [List.length_map]
  exact asyncRead_calls_length t env

/-- Helper: the service-client call chain invokes the user handler exactly
once per environment. -/
theorem asyncCallOperation_calls_length {α : Type} (t : Int) (env : CallEnv α) :
    (asyncCallOperation t env).length = 1 := by
  unfold asyncCallOperation
  split
  · rfl
  · obtain ⟨e, he⟩ : ∃ e, (asyncSend env.encodeResult env.sendCompletion).allCalls = [e] := by
      have h1 := asyncSend_calls_length env.encodeResult env.sendCompletion
      cases hcalls : (asyncSend env.encodeResult env.sendCompletion).allCalls with
      | nil => rw [hcalls] at h1; simp at h1
      | cons x xs =>
          rw [hcalls] at h1
          simp only [List.length_cons, Nat.add_left_eq_self] at h1
          exact ⟨x, by rw [List.length_eq_zero] at h1; rw [h1]⟩
    rw [he]
    simp only [List.flatMap_cons, List.flatMap_nil, List.append_nil]
    split
    · rfl
    · exact asyncReceive_calls_length env.dec _ env.readEnv

/-- Helper: a moved-from guard recorded by any chain step is not alive, so
its destructor does not close the transport. -/
theorem chain_moved_from_dead (ks : List MoveKind) (h : Closer) (acc : List Closer)
    (hacc : ∀ c ∈ acc, c.alive = false) :
    ∀ c ∈ (List.foldl chainStep (h, acc) ks).2, c.alive = false := by
  induction ks generalizing h acc with
  | nil => simpa using hacc
  | cons k ks ih =>
      simp only [List.foldl_cons]
      apply ih
      intro c hc
      rcases List.mem_cons.mp hc with hhead | htail
      · subst hhead
        cases k <;> rfl
      · exact hacc c htail

/-- Helper: a list of dead guards contributes no closes. -/
theorem filter_closes_nil (l : List Closer) (hl : ∀ c ∈ l, c.alive = false) :
    l.filter (fun c => c.destructorCloses) = [] := by
  induction l with
  | nil => rfl
  | cons x xs ih =>
      have hx : x.alive = false := hl x (List.mem_cons_self x xs)
      simp only [List.filter_cons, Closer.destructorCloses, hx, Bool.false_eq_true,
        if_false]
      exact ih (fun c hc => hl c (List.mem_cons_of_mem x hc))

/-- Claim C1: the completion handler of `timedAsyncOperation` classifies
the outcome as `Success` exactly when the I/O reported no error and the
transport is still open, as `Aborted` exactly when the transport is no
longer open regardless of the reported error, and as `FailedOperation`
exactly when the I/O reported an error while the transport is still
open. -/
theorem timedAsyncOperation_classification (c : Completion) :
    (timedAsyncOperation c = ErrorCode.success ↔ (c.opError.isError = false ∧ c.isOpen = true))
    ∧ (timedAsyncOperation c = ErrorCode.aborted ↔ c.isOpen = false)
    ∧ (timedAsyncOperation c = ErrorCode.failedOperation
        ↔ (c.opError.isError = true ∧ c.isOpen = true)) := by
  obtain ⟨o, e, b⟩ := c
  cases o <;> cases e <;> simp [timedAsyncOperation, SysError.isError]

/-- Witness for C1: a completion on a closed transport is classified
`Aborted`. -/
theorem timedAsyncOperation_classification_witness :
    timedAsyncOperation { isOpen := false, opError := SysError.operationAborted, bytes := 0 }
      = ErrorCode.aborted :=
  ((timedAsyncOperation_classification
      { isOpen := false, opError := SysError.operationAborted, bytes := 0 }).2.1).mpr rfl

/-- Claim C3: the code contradicts the claim.  Because the completion
handler of `timedOperation` never assigns `closeableError`, the final check
always sees the initial `would_block` sentinel: the wrapper throws
`FailedOperation` for every completion — in particular where the claim
requires a normal return (no error, transport still open) and where it
requires `Aborted` (completion error `operation_aborted`). -/
theorem timedOperation_always_throws_failedOperation :
    (∀ (e : SysError) (isOpen : Bool),
      (timedOperation e isOpen).1 = SyncResult.threwFailedOperation)
    ∧ (timedOperation SysError.success true).1 ≠ SyncResult.ok
    ∧ (timedOperation SysError.operationAborted false).1 ≠ SyncResult.threwAborted := by
  refine ⟨fun e isOpen => ?_, by decide, by decide⟩
  cases isOpen <;> rfl

/-- Claim C2 counterexample: a framed write ended by deadline expiry (the
transport was closed, the I/O completed with the cancellation error) that
transferred fewer bytes than the frame size delivers `FailedOperation` to
the user handler, not `Aborted`, although the classified error of the
completion is `Aborted`. -/
theorem asyncWrite_timeout_shortWrite_cex :
    Completion.code { isOpen := false, opError := SysError.operationAborted, bytes := 2 }
      = ErrorCode.aborted
    ∧ asyncWrite [104, 105] { isOpen := false, opError := SysError.operationAborted, bytes := 2 }
        = [ErrorCode.failedOperation]
    ∧ ErrorCode.failedOperation ≠ ErrorCode.aborted := by
  decide

/-- Claim C2 (amended): for every operation ended by deadline expiry the
classified error computed by `timedAsyncOperation` is `Aborted`, and
handlers that propagate the classified error — in particular the framed
`asyncRead` header phase — deliver `Aborted` to the user handler; on the
framed `asyncWrite` path the user handler receives `Aborted` only when the
full frame was transferred, and `FailedOperation` when the timed-out write
delivered fewer bytes than the frame size, because the short-write check
precedes error propagation. -/
theorem deadline_aborted_amended (c : Completion) (writeData : List Nat) (t : Int)
    (env : ReadEnv) (h1 : c.isOpen = false) (h2 : c.opError = SysError.operationAborted)
    (hr : env.phase1 = c) :
    c.code = ErrorCode.aborted
    ∧ asyncWrite writeData c
        = (if c.bytes < frameSize writeData then [ErrorCode.failedOperation]
           else [ErrorCode.aborted])
    ∧ (asyncRead t env).1 = [(ErrorCode.aborted, [])] := by
  have hc : c.code = ErrorCode.aborted := by
    simp [Completion.code, timedAsyncOperation, h1]
  refine ⟨hc, ?_, ?_⟩
  · unfold asyncWrite
    rw [hc]
  · simp [asyncRead, hr, hc, ErrorCode.isError]

/-- Witness for the amended C2: a timed-out short write of a one-byte
payload yields `FailedOperation`, while the header phase of a timed-out
read delivers `Aborted`. -/
theorem deadline_aborted_amended_witness :
    Completion.code { isOpen := false, opError := SysError.operationAborted, bytes := 0 }
      = ErrorCode.aborted
    ∧ asyncWrite [104] { isOpen := false, opError := SysError.operationAborted, bytes := 0 }
        = (if ({ isOpen := false, opError := SysError.operationAborted, bytes := 0 } :
              Completion).bytes < frameSize [104] then [ErrorCode.failedOperation]
           else [ErrorCode.aborted])
    ∧ (asyncRead 9
        { phase1 := { isOpen := false, opError := SysError.operationAborted, bytes := 0 },
          headerBytes := [], elapsed := 0,
          phase2 := { isOpen := true, opError := SysError.success, bytes := 0 },
          bodyBytes := [] }).1 = [(ErrorCode.aborted, [])] :=
  deadline_aborted_amended
    { isOpen := false, opError := SysError.operationAborted, bytes := 0 } [104] 9
    { phase1 := { isOpen := false, opError := SysError.operationAborted, bytes := 0 },
      headerBytes := [], elapsed := 0,
      phase2 := { isOpen := true, opError := SysError.success, bytes := 0 },
      bodyBytes := [] } rfl rfl rfl

/-- Claim C4: every submitted asynchronous operation — `asyncWrite`,
`asyncRead`, `asyncSend`, `asyncReceive` and `asyncCallOperation` — invokes
its user handler exactly once, whatever the completion environment
(success, local error, remote error, timeout or cancellation). -/
theorem handlers_exactly_once {α : Type} (writeData : List Nat) (c : Completion)
    (t : Int) (env : ReadEnv) (enc : Option (List Nat)) (c2 : Completion)
    (dec : List Nat → Option α) (t2 : Int) (env2 : ReadEnv) (t3 : Int)
    (cenv : CallEnv α) :
    (asyncWrite writeData c).length = 1
    ∧ (asyncRead t env).1.length = 1
    ∧ (asyncSend enc c2).allCalls.length = 1
    ∧ (asyncReceive dec t2 env2).length = 1
    ∧ (asyncCallOperation t3 cenv).length = 1 :=
  ⟨asyncWrite_calls_length writeData c, asyncRead_calls_length t env,
    asyncSend_calls_length enc c2, asyncReceive_calls_length dec t2 env2,
    asyncCallOperation_calls_length t3 cenv⟩

/-- Claim C5: a two-phase framed read whose header phase delivers exactly
the 4 header bytes with no error and parses to length zero invokes the
handler once with success and empty data, and submits no body-phase
read. -/
theorem asyncRead_emptyPayload (t : Int) (env : ReadEnv)
    (h1 : env.phase1.code = ErrorCode.success)
    (h2 : env.phase1.bytes = HEADER_SIZE)
    (h3 : fromBigEndian4 (env.headerBytes.take HEADER_SIZE) = 0) :
    asyncRead t env = ([(ErrorCode.success, [])], none) := by
  simp [asyncRead, h1, h2, h3, ErrorCode.isError]

/-- Witness for C5: a header of four zero bytes yields an immediate empty
success with no second read. -/
theorem asyncRead_emptyPayload_witness :
    asyncRead 10
      { phase1 := { isOpen := true, opError := SysError.success, bytes := 4 },
        headerBytes := [0, 0, 0, 0], elapsed := 2,
        phase2 := { isOpen := true, opError := SysError.success, bytes := 0 },
        bodyBytes := [] } = ([(ErrorCode.success, [])], none) :=
  asyncRead_emptyPayload 10 _ (by decide) (by decide) (by decide)

/-- Claim C6: whenever the body phase of a two-phase framed read is
submitted, its timeout is the total timeout minus the time elapsed since
`asyncRead` entry — the deadline is split across the phases by
remaining-time accounting. -/
theorem asyncRead_remainingTimeout (t : Int) (env : ReadEnv)
    (h1 : env.phase1.code = ErrorCode.success)
    (h2 : env.phase1.bytes = HEADER_SIZE)
    (h3 : fromBigEndian4 (env.headerBytes.take HEADER_SIZE) ≠ 0) :
    (asyncRead t env).2
      = some (fromBigEndian4 (env.headerBytes.take HEADER_SIZE), t - env.elapsed) := by
  simp [asyncRead, h1, h2, h3, ErrorCode.isError]

/-- Witness for C6: with total timeout 10 and 3 units elapsed during the
header phase, the body read of the announced 2 bytes gets timeout 7. -/
theorem asyncRead_remainingTimeout_witness :
    (asyncRead 10
      { phase1 := { isOpen := true, opError := SysError.success, bytes := 4 },
        headerBytes := [0, 0, 0, 2], elapsed := 3,
        phase2 := { isOpen := true, opError := SysError.success, bytes := 2 },
        bodyBytes := [5, 6] }).2 = some (2, 7) :=
  asyncRead_remainingTimeout 10 _ (by decide) (by decide) (by decide)

/-- Claim C7: a phase of a two-phase framed read that completes with no
transport error but the wrong byte count — a header phase delivering other
than 4 bytes, or a body phase delivering other than the announced count —
invokes the handler with `InvalidFrame` and empty data. -/
theorem asyncRead_invalidFrame (t : Int) (env : ReadEnv) :
    (env.phase1.code = ErrorCode.success → env.phase1.bytes ≠ HEADER_SIZE →
      asyncRead t env = ([(ErrorCode.invalidFrame, [])], none))
    ∧ (env.phase1.code = ErrorCode.success → env.phase1.bytes = HEADER_SIZE →
      fromBigEndian4 (env.headerBytes.take HEADER_SIZE) ≠ 0 →
      env.phase2.code = ErrorCode.success →
      env.phase2.bytes ≠ fromBigEndian4 (env.headerBytes.take HEADER_SIZE) →
      (asyncRead t env).1 = [(ErrorCode.invalidFrame, [])]) := by
  constructor
  · intro h1 h2
    simp [asyncRead, h1, h2, ErrorCode.isError]
  · intro h1 h2 h3 h4 h5
    simp [asyncRead, h1, h2, h3, h4, h5, ErrorCode.isError]

/-- Witness for C7: a 3-byte header completion yields `InvalidFrame`; a
body phase delivering 1 byte where the header announced 2 yields
`InvalidFrame`. -/
theorem asyncRead_invalidFrame_witness :
    asyncRead 10
      { phase1 := { isOpen := true, opError := SysError.success, bytes := 3 },
        headerBytes := [0, 0, 0, 1], elapsed := 0,
        phase2 := { isOpen := true, opError := SysError.success, bytes := 0 },
        bodyBytes := [] } = ([(ErrorCode.invalidFrame, [])], none)
    ∧ (asyncRead 10
        { phase1 := { isOpen := true, opError := SysError.success, bytes := 4 },
          headerBytes := [0, 0, 0, 2], elapsed := 1,
          phase2 := { isOpen := true, opError := SysError.success, bytes := 1 },
          bodyBytes := [7] }).1 = [(ErrorCode.invalidFrame, [])] :=
  ⟨(asyncRead_invalidFrame 10 _).1 (by decide) (by decide),
   (asyncRead_invalidFrame 10 _).2 (by decide) (by decide) (by decide) (by decide)
     (by decide)⟩

/-- Claim C8: an encode failure on `asyncSend` or `asyncSendDatagram`
invokes no handler synchronously from the submitting call, schedules
exactly one `Encoding` invocation on the executor, and attempts no
transport I/O. -/
theorem asyncSend_encodingPosted (c : Completion) (e : ErrorCode) :
    (asyncSend none c).submitCalls = []
    ∧ (asyncSend none c).postedCalls = [ErrorCode.encoding]
    ∧ (asyncSend none c).ioCalls = []
    ∧ (asyncSend none c).ioAttempted = false
    ∧ (asyncSendDatagram none e).submitCalls = []
    ∧ (asyncSendDatagram none e).postedCalls = [ErrorCode.encoding]
    ∧ (asyncSendDatagram none e).ioCalls = []
    ∧ (asyncSendDatagram none e).ioAttempted = false :=
  ⟨rfl, rfl, rfl, rfl, rfl, rfl, rfl, rfl⟩

/-- Claim C9 counterexample: the header phase of the read completes with
the cancellation classification `Aborted`, so the read handler receives
`(Aborted, empty)`; yet `asyncReceive` with a decoder that fails on the
empty bytes reports `Decoding` to the user handler — the read error is not
forwarded. -/
theorem asyncReceive_decodeMasksError_cex :
    (asyncRead 10
      { phase1 := { isOpen := false, opError := SysError.operationAborted, bytes := 0 },
        headerBytes := [], elapsed := 0,
        phase2 := { isOpen := true, opError := SysError.success, bytes := 0 },
        bodyBytes := [] }).1 = [(ErrorCode.aborted, [])]
    ∧ asyncReceive decodeNonEmpty 10
        { phase1 := { isOpen := false, opError := SysError.operationAborted, bytes := 0 },
          headerBytes := [], elapsed := 0,
          phase2 := { isOpen := true, opError := SysError.success, bytes := 0 },
          bodyBytes := [] } = [(ErrorCode.decoding, none)]
    ∧ ErrorCode.decoding ≠ ErrorCode.aborted := by
  decide

/-- Claim C9 (amended): `asyncReceive` (and `asyncReceiveDatagram`) applies
the decoder to the delivered bytes regardless of the read outcome: the
handler receives `Decoding` exactly when the decoder fails on those bytes —
including the empty bytes delivered after a failed read, so a decoder
failure can replace the read error — and when the decoder succeeds the
read's error code is forwarded to the handler unchanged. -/
theorem asyncReceive_decode_amended {α : Type} (dec : List Nat → Option α)
    (t : Int) (env : ReadEnv) (e : ErrorCode) (d : List Nat)
    (h : (asyncRead t env).1 = [(e, d)])
    (edg : ErrorCode) (ddg : List Nat) (host : String) (port : Nat) :
    (dec d = none → asyncReceive dec t env = [(ErrorCode.decoding, none)])
    ∧ (∀ m, dec d = some m → asyncReceive dec t env = [(e, some m)])
    ∧ (dec ddg = none →
        asyncReceiveDatagram dec edg ddg host port
          = [(ErrorCode.decoding, none, host, port)])
    ∧ (∀ m, dec ddg = some m →
        asyncReceiveDatagram dec edg ddg host port
          = [(edg, some m, host, port)]) := by
  refine ⟨?_, ?_, ?_, ?_⟩
  · intro hd
    simp [asyncReceive, h, hd]
  · intro m hd
    simp [asyncReceive, h, hd]
  · intro hd
    simp [asyncReceiveDatagram, hd]
  · intro m hd
    simp [asyncReceiveDatagram, hd]

/-- Witness for the amended C9: a successful read of the body bytes 7, 8
with a succeeding decoder forwards success and the decoded message. -/
theorem asyncReceive_decode_amended_witness :
    asyncReceive decodeNonEmpty 10
      { phase1 := { isOpen := true, opError := SysError.success, bytes := 4 },
        headerBytes := [0, 0, 0, 2], elapsed := 1,
        phase2 := { isOpen := true, opError := SysError.success, bytes := 2 },
        bodyBytes := [7, 8] } = [(ErrorCode.success, some [7, 8])] :=
  (asyncReceive_decode_amended decodeNonEmpty 10
      { phase1 := { isOpen := true, opError := SysError.success, bytes := 4 },
        headerBytes := [0, 0, 0, 2], elapsed := 1,
        phase2 := { isOpen := true, opError := SysError.success, bytes := 2 },
        bodyBytes := [7, 8] } ErrorCode.success [7, 8] (by decide)
      ErrorCode.success [9] "peer" 4000).2.1 [7, 8] (by decide)

/-- Claim C10: a `Closer` destructor closes the transport exactly while
the guard is alive; a move (by construction or assignment) marks the source
not alive, so a moved-from guard never closes on destruction; and along any
guard chain of moves starting from a freshly constructed `Closer`, the
transport is closed at most once when all guards are destroyed. -/
theorem closer_at_most_one_close :
    (∀ c : Closer, c.destructorCloses = c.alive)
    ∧ (∀ c : Closer, (Closer.moveCtor c).2.destructorCloses = false)
    ∧ (∀ d s : Closer, (Closer.moveAssign d s).2.destructorCloses = false)
    ∧ (∀ ks : List MoveKind, chainCloseCount ks ≤ 1) := by
  refine ⟨fun c => rfl, fun c => rfl, fun d s => rfl, fun ks => ?_⟩
  have hdead : ∀ c ∈ (runChain ks).2, c.alive = false :=
    chain_moved_from_dead ks Closer.make [] (by intro c hc; cases hc)
  have hfil : ((runChain ks).2.filter (fun c => c.destructorCloses)) = [] :=
    filter_closes_nil (runChain ks).2 hdead
  unfold chainCloseCount
  rw [hfil]
  simp only [List.length_nil, Nat.add_zero]
  split <;> simp
